import Mathlib

/-!
Shallow embedding of `tots_sbd_decode/parse.py` (Iridium SBD message decoder)
with theorems settling the specification claims.

Conventions of the embedding:
* Python `bytes` objects are `List Nat` with entries in `0..255`.
* Python `print(...)` diagnostics are modelled as a write-only list of
  warning strings threaded through the computation.
* Python exceptions (`IndexError` on out-of-range `xs[i]`, `KeyError` on a
  missing dict key, `TypeError` on `int.from_bytes` applied to an `int`,
  `ValueError` from decryption) are modelled with an `Except`-style result;
  already-emitted warnings survive an exception, as printed output does.
* String renderings that are display-only (`binascii.hexlify`, `_binify`,
  `datetime` formatting, degree/minute formatting) are modelled by dedicated
  `Attr` constructors that record the rendered data exactly; the final
  string formatting is an injective function of that data and no claim
  depends on it.
* Exact rational arithmetic stands in for Python float arithmetic; every
  formula the claims mention is algebraically identical in source and spec,
  so the comparison is unaffected.
-/

namespace TotsSbd

/-- Python exception kinds that the decoder can actually raise. -/
inductive PyErr where
  | indexError
  | keyError
  | typeError
  | valueError
deriving DecidableEq, Repr

/-- A Python `bytes` value: a list of byte values. -/
abbrev Bytes := List Nat

/-- A value stored in the decoder's ordered attribute tree.  Constructors
`hex`, `bin`, `raw`, `dtLocal`, `dtUtc`, `degMin` record the exact data whose
string rendering the Python code stores; the rendering itself is display-only. -/
inductive Attr where
  | str : String → Attr
  | nat : Nat → Attr
  | int : Int → Attr
  | bool : Bool → Attr
  /-- a `(value, unit-string)` tuple such as `(6.7 * r, '%')`. -/
  | unit : ℚ → String → Attr
  /-- `_hexlify` of the recorded bytes. -/
  | hex : Bytes → Attr
  /-- `_binify` of the recorded values with the recorded pads. -/
  | bin : List Nat → List Nat → Attr
  /-- a bytes value stored directly (no hexlification). -/
  | raw : Bytes → Attr
  /-- a `datetime.timedelta`, recorded in seconds. -/
  | duration : Nat → Attr
  /-- `datetime.datetime.fromtimestamp` of the recorded Unix time. -/
  | dtLocal : Nat → Attr
  /-- `datetime.datetime.utcfromtimestamp` of the recorded Unix time. -/
  | dtUtc : Nat → Attr
  /-- the `f'{deg}° {min:.05f}'` rendering of a degrees/minutes pair. -/
  | degMin : Int → ℚ → Attr
  | tree : List (String × Attr) → Attr

/-- An ordered attribute dictionary (`collections.OrderedDict`). -/
abbrev AttrTree := List (String × Attr)

/-- The decoding monad: threads the list of printed warnings and an optional
Python exception.  Warnings printed before an exception are preserved. -/
def M (α : Type) : Type := List String → Except PyErr α × List String

instance : Monad M where
  pure a := fun w => (.ok a, w)
  bind m f := fun w =>
    match m w with
    | (.ok a, w') => f a w'
    | (.error e, w') => (.error e, w')

/-- Model of `print(s)`: append a diagnostic line. -/
def warn (s : String) : M Unit := fun w => (.ok (), w ++ [s])

/-- Raise a Python exception. -/
def throwErr {α : Type} (e : PyErr) : M α := fun w => (.error e, w)

/-- Run a decode from an empty output stream. -/
def runM {α : Type} (m : M α) : Except PyErr α × List String := m []

/-- Python `xs[i]` for a non-negative index: the element, or `IndexError`. -/
def pyGet (xs : Bytes) (i : Nat) : M Nat :=
  match xs.drop i with
  | [] => throwErr .indexError
  | b :: _ => pure b

/-- Python slice index normalization: negative indices count from the end,
out-of-range indices clamp. -/
def pyIdx (len : Nat) (i : Int) : Nat :=
  if i < 0 then ((len : Int) + i).toNat else min i.toNat len

/-- Python `xs[a:b]` (never raises). -/
def pySlice {α : Type} (xs : List α) (a b : Int) : List α :=
  (xs.take (pyIdx xs.length b)).drop (pyIdx xs.length a)

/-- Python `xs[a:]` for a non-negative `a`. -/
def pyDrop {α : Type} (xs : List α) (a : Nat) : List α := xs.drop a

/-- Lowercase hex rendering of a number, as in Python's `f'0x{n:x}'` body. -/
def natHex (n : Nat) : String := String.mk (Nat.toDigits 16 n)

/-- Python `int.from_bytes(bs, 'big', signed=False)`. -/
def intFromBytesBE (bs : Bytes) : Nat := bs.foldl (fun a b => a * 256 + b) 0

/-- Python `int.from_bytes(x, 'big', signed=True)` applied to an `int` value
(not a `bytes` value): CPython raises
`TypeError: cannot convert 'int' object to bytes`. -/
def intFromBytesOfInt (_ : Nat) : M Int := throwErr .typeError

/-! ### Utilities (parse.py) -/

/-- `_isolate_bits(byte, position, mask=0b1)`. -/
def _isolate_bits (byte : Nat) (position : Nat) (mask : Nat := 1) : Nat :=
  (byte &&& (mask <<< position)) >>> position

/-- `_hexlify` on a bytes value (the hex-string rendering is display-only). -/
def _hexlify (bs : Bytes) : Attr := .hex bs

/-- `_hexlify` on a single int: hexlifies `bytes([b])`. -/
def _hexlify1 (b : Nat) : Attr := .hex [b]

/-- `_binify` on a single int with a numeric pad (rendering display-only). -/
def _binify1 (v : Nat) (pad : Nat) : Attr := .bin [v] [pad]

/-- `_binify` on several values with per-value pads (rendering display-only). -/
def _binify (vs : List Nat) (pads : List Nat) : Attr := .bin vs pads

/-- `_parse_bool_flag(byte, name, position, attrs)`: the two entries appended
to `attrs`. -/
def _parse_bool_flag (byte : Nat) (name : String) (position : Nat) : AttrTree :=
  let flag := _isolate_bits byte position
  [(name ++ "-(bin)", _binify1 flag 1), (name, .bool (flag != 0))]

/-! ### Chained Locations (parse.py) -/

/-- `_time_weights`: the delta-time weight table, with each
`datetime.timedelta` recorded in seconds. -/
def _time_weights (w : Nat) : Option Nat :=
  if w = 0b000 then some 30
  else if w = 0b001 then some 120
  else if w = 0b010 then some 900
  else if w = 0b011 then some 3600
  else if w = 0b100 then some 14400
  else if w = 0b101 then some 28800
  else if w = 0b110 then some 43200
  else if w = 0b111 then some 86400
  else none

/-- Python dict subscript `_time_weights[w]`: `KeyError` when absent. -/
def timeWeightAt (w : Nat) : M Nat :=
  match _time_weights w with
  | some secs => pure secs
  | none => throwErr .keyError

/-- `_parse_chained_location_delta_time(delta_time, delta_time_attrs)`. -/
def _parse_chained_location_delta_time (delta_time : Nat) : M AttrTree := do
  let weight := _isolate_bits delta_time 5 0b111
  let wsecs ← timeWeightAt weight
  let multiplier := delta_time &&& 0b11111
  let duration := multiplier * wsecs
  pure [("(bin)", _binify1 delta_time 8),
    ("(weight)-(bin)", _binify1 weight 3),
    ("(weight)", .duration wsecs),
    ("(multiplier)-(bin)", _binify1 multiplier 5),
    ("(multiplier)", .nat multiplier),
    ("duration", if duration = 0 then .str ">31 days" else .duration duration)]

/-- `_parse_position_heading_speed(payload_heading_speed, attrs)`. -/
def _parse_position_heading_speed (b : Nat) : AttrTree :=
  let heading := _isolate_bits b 5 0b111
  let speed := b &&& 0b11111
  [("(hex)", _hexlify1 b), ("(bin)", _binify1 b 8),
   ("heading-(bin)", _binify1 heading 3),
   ("heading", .unit ((heading * 45 : Nat) : ℚ) "°"),
   ("speed-(bin)", _binify1 speed 5),
   ("speed", .unit ((speed * 4 : Nat) : ℚ) "mph")]

/-- `_parse_chained_location_status_beta(status, status_beta_attrs)`. -/
def _parse_chained_location_status_beta (status : Nat) : AttrTree :=
  [("(hex)", _hexlify1 status), ("(bin)", _binify1 status 8)] ++
    _parse_position_heading_speed status

/-- `_parse_chained_location_status_prod(status, status_prod_attrs)`. -/
def _parse_chained_location_status_prod (status : Nat) : AttrTree :=
  let speed := status &&& 0b1111
  [("(hex)", _hexlify1 status), ("(bin)", _binify1 status 8)] ++
  _parse_bool_flag status "from-position-message" 0 ++
  _parse_bool_flag status "from-power-save-position-message" 1 ++
  _parse_bool_flag status "from-home-position-message" 2 ++
  _parse_bool_flag status "from-away-position-message" 3 ++
  _parse_bool_flag status "from-user-position-message" 4 ++
  _parse_bool_flag status "from-radio-silence-out-position-message" 5 ++
  _parse_bool_flag status "from-motion-start-message" 6 ++
  _parse_bool_flag status "from-motion-stop-message" 7 ++
  _parse_bool_flag status "from-in-motion-message" 8 ++
  [("speed-(bin)", _binify1 speed 4),
   ("speed", .unit ((speed * 8 : Nat) : ℚ) "mph")]

/-! ### Geo codecs (parse.py) -/

/-- Round to 5 decimal places (display-only; Python's float rounding is
modelled as exact half-up rounding on rationals). -/
def round5 (q : ℚ) : ℚ := ((Int.floor (q * 100000 + 1/2) : Int) : ℚ) / 100000

/-- `_convert_dec_to_dm(dd)`. -/
def _convert_dec_to_dm (dd : ℚ) : Int × ℚ :=
  let add := abs dd
  let degrees : Int := Int.floor add
  let minutes : ℚ := add * 60 - 60 * degrees
  if ¬ dd < 0 then (degrees, round5 minutes)
  else if degrees > 0 then (-degrees, round5 minutes)
  else (degrees, round5 (-minutes))

/-- `_parse_position_lat_long(payload_lat_long, payload_attrs)`. -/
def _parse_position_lat_long (payload_lat_long : Bytes) : AttrTree :=
  let lat := pySlice payload_lat_long 0 3
  let lat_encoded : ℚ := intFromBytesBE lat
  let latThreshold : ℚ := 2 ^ 23 / 90
  let lat_dec : ℚ :=
    if lat_encoded / latThreshold > 90 then -1 * (180 - lat_encoded / latThreshold)
    else lat_encoded / latThreshold
  let latdm := _convert_dec_to_dm lat_dec
  let long := pySlice payload_lat_long 3 6
  let long_encoded : ℚ := intFromBytesBE long
  let longThreshold : ℚ := 2 ^ 23 / 180
  let long_dec : ℚ :=
    if long_encoded / longThreshold > 180 then -1 * (360 - long_encoded / longThreshold)
    else long_encoded / longThreshold
  let longdm := _convert_dec_to_dm long_dec
  [("latitude-(hex)", _hexlify lat),
   ("latitude-(decimal)", .unit lat_dec "°"),
   ("latitude", .degMin latdm.1 latdm.2),
   ("longitude-(hex)", _hexlify long),
   ("longitude-(decimal)", .unit long_dec "°"),
   ("longitude", .degMin longdm.1 longdm.2)]

/-- `_parse_chained_location(chained_location, chained_location_attrs)`. -/
def _parse_chained_location (chained_location : Bytes) : M AttrTree := do
  let b0 ← pyGet chained_location 0
  let dt ← _parse_chained_location_delta_time b0
  let b7 ← pyGet chained_location 7
  pure ([("(hex)", _hexlify chained_location),
         ("chain-delta-time", .tree dt)] ++
        _parse_position_lat_long (pySlice chained_location 1 7) ++
        [("status-beta", .tree (_parse_chained_location_status_beta b7)),
         ("status-prod", .tree (_parse_chained_location_status_prod b7))])

/-- The `for i in range(0, len(payload_chained), 8)` loop of
`_parse_position_msg_chain`; `idx` is `i // 8`. -/
def _parse_position_msg_chain_go (payload : Bytes) (idx : Nat) : M AttrTree :=
  if h : payload = [] then pure []
  else do
    let cl ← _parse_chained_location (payload.take 8)
    let rest ← _parse_position_msg_chain_go (payload.drop 8) (idx + 1)
    pure ((toString idx, Attr.tree cl) :: rest)
termination_by payload.length
decreasing_by
  simp only [List.length_drop]
  have hlen : payload.length ≠ 0 := fun h0 => h (List.length_eq_zero.mp h0)
  omega

/-- `_parse_position_msg_chain(payload_chained, payload_chained_attrs)`. -/
def _parse_position_msg_chain (payload_chained : Bytes) : M AttrTree := do
  if payload_chained.length % 8 != 0 then
    warn ("Warning: chained positions have unexpected total length of " ++
      toString payload_chained.length ++ "!")
  let locs ← _parse_position_msg_chain_go payload_chained 0
  pure ([("(hex)", _hexlify payload_chained)] ++ locs)

/-! ### Position Messages (parse.py) -/

/-- `_position_msg_subtypes`. -/
def _position_msg_subtypes (b : Nat) : Option String :=
  if b = 0x00 then some "radio-silence-in"
  else if b = 0x01 then some "radio-silence-out"
  else if b = 0x03 then some "start-motion"
  else if b = 0x04 then some "stop-motion"
  else if b = 0x05 then some "in-motion"
  else if b = 0x14 then some "null-gps"
  else if b = 0x17 then some "user-position-message"
  else if b = 0x1b then some "position"
  else none

/-- `_binify` on a bytes value with one pad for every byte. -/
def _binifyBytes (bs : Bytes) (pad : Nat) : Attr := .bin bs (bs.map fun _ => pad)

/-- `_parse_position_header_msg_count(header, header_attrs)`. -/
def _parse_position_header_msg_count (header : Nat) : AttrTree :=
  let msg_count := _isolate_bits header 6 0b11
  [("message-count-(bin)", _binify1 msg_count 2), ("message-count", .nat msg_count)]

/-- `_gps_quality_values` lookup and `_parse_position_header_gps_quality`. -/
def _parse_position_header_gps_quality (header : Nat) : AttrTree :=
  let gps_quality := _isolate_bits header 5 != 0
  [("gps-quality-(bin)", _binify1 (if gps_quality then 1 else 0) 1),
   ("gps-quality", .str (if gps_quality then "3D" else "2D"))]

/-- `_parse_position_msg_header(header, header_attrs)`: the attributes
appended to `header_attrs`, together with the returned `msg_subtype`
(`none` models Python's early `return None`). -/
def _parse_position_msg_header (header : Nat) : M (AttrTree × Option String) := do
  let base : AttrTree := [("(hex)", _hexlify1 header), ("(bin)", _binify1 header 8)]
  let raw_subtype := header &&& 0b11111
  match _position_msg_subtypes raw_subtype with
  | none => do
      warn ("Error: unexpected message subtype 0x" ++ natHex raw_subtype ++ "!")
      pure (base, none)
  | some msg_subtype => do
      let mid : AttrTree ←
        match msg_subtype with
        | "radio-silence-in" => do
            let frag := _parse_position_header_msg_count header ++
              [("(unused)-(bin)", _binify1 (_isolate_bits header 5) 1)]
            if _isolate_bits header 5 != 1 then
              warn "Error: bit 5 of message header has unexpected value!"
            pure frag
        | "radio-silence-out" =>
            pure (_parse_position_header_msg_count header ++
              _parse_position_header_gps_quality header)
        | "start-motion" | "stop-motion" | "in-motion" =>
            pure (_parse_position_header_msg_count header ++
              _parse_position_header_gps_quality header)
        | "null-gps" => do
            let frag1 : AttrTree :=
              [("(unused)-(bin)", _binify1 (_isolate_bits header 6 0b11) 2)]
            if _isolate_bits header 5 != 1 then
              warn "Error: bit 5 of message header has unexpected value!"
            pure (frag1 ++ _parse_bool_flag header "powersave-mode" 5)
        | "user-position" =>
            -- dead branch: the subtype table maps 0x17 to
            -- "user-position-message", which this pattern never matches
            pure (_parse_position_header_msg_count header ++
              _parse_position_header_gps_quality header)
        | "position" =>
            pure (_parse_bool_flag header "powersave-mode" 7 ++
              _parse_bool_flag header "secondary-over-50%" 6 ++
              _parse_position_header_gps_quality header)
        | other => do
            warn ("Error: unexpected message subtype " ++ other ++ "!")
            pure []
      pure (base ++ mid ++
        [("message-subtype-(bin)", _binify1 raw_subtype 5),
         ("message-subtype-(hex)", _hexlify1 raw_subtype),
         ("message-subtype", .str msg_subtype)], some msg_subtype)

/-- `_parse_position_radio_msg_status(msg_subtype, status, status_attrs)`. -/
def _parse_position_radio_msg_status (msg_subtype : String) (status : Bytes) :
    M AttrTree := do
  let s0 ← pyGet status 0
  let base := [("(hex)", _hexlify status), ("(bin)", _binifyBytes status 8)] ++
    _parse_bool_flag s0 "triggered-magnetically" 7
  match msg_subtype with
  | "radio-silence-in" => do
      let s1 ← pyGet status 1
      pure (base ++ [("(unused)", _binify1 (_isolate_bits s0 6) 1),
        ("(future)-(bin)", _binify [s0 &&& 0b111111, s1] [6, 8])])
  | "radio-silence-out" => do
      let s1 ← pyGet status 1
      pure (base ++ _parse_bool_flag s0 "failsafe-timed-out" 6 ++
        [("(reserved)-(bin)", _binify [s0 &&& 0b111111, s1] [6, 8])])
  | _ =>
      -- Python formats a str with the `:x` format code here, raising ValueError
      throwErr .valueError

/-- `_parse_timestamp(raw, timestamp_attrs)`. -/
def _parse_timestamp (raw : Bytes) : AttrTree :=
  let parsed := intFromBytesBE raw
  [("(hex)", _hexlify raw), ("int", .nat parsed),
   ("local", .dtLocal parsed), ("utc", .dtUtc parsed)]

/-- `_position_msg_status_modes`. -/
def _position_msg_status_modes (m : Nat) : Option String :=
  if m = 0 then some "(reserved)"
  else if m = 1 then some "standard-interval"
  else if m = 2 then some "home-mode"
  else if m = 3 then some "away-mode"
  else if m = 4 then some "power-save-mode"
  else if m = 5 then some "user-mode"
  else none

/-- `_parse_position_msg_position_status(status, status_attrs)`. -/
def _parse_position_msg_position_status (status : Nat) : M AttrTree := do
  let mode := _isolate_bits status 4 0b111
  let base := [("(hex)", _hexlify1 status), ("(bin)", _binify1 status 8)] ++
    _parse_bool_flag status "vibration-motion" 7 ++
    [("mode-(bin)", _binify1 mode 3), ("mode-(int)", .nat mode)]
  let modeFrag : AttrTree ←
    match _position_msg_status_modes mode with
    | none => do
        warn ("Error: position message status mode has unexpected value " ++
          toString mode ++ "!")
        pure []
    | some modeStr => pure [("mode", .str modeStr)]
  pure (base ++ modeFrag ++ [("(reserved)", _binify1 (status &&& 0b111) 3)])

/-- `f'{hours:02d}:{minutes:02d}'` (display-only rendering). -/
def twoDigit (n : Nat) : String := if n < 10 then "0" ++ toString n else toString n

/-- `_parse_position_msg_motion_payload(payload, payload_attrs)`. -/
def _parse_position_msg_motion_payload (payload : Bytes) : M AttrTree := do
  let time_of_day ← pyGet payload 6
  if time_of_day > (60 * 24) / 6 then
    warn ("Error: unexpectedly large time-of-day " ++ toString time_of_day)
  let hs ← pyGet payload 7
  pure (_parse_position_lat_long (pySlice payload 0 6) ++
    [("time-of-day-(hex)", _hexlify1 time_of_day),
     ("time-of-day-(min)", .nat (time_of_day * 6)),
     ("time-of-day", .str (twoDigit (time_of_day * 6 / 60) ++ ":" ++
       twoDigit (time_of_day * 6 % 60))),
     ("heading-speed", .tree (_parse_position_heading_speed hs))])

/-- `_parse_position_msg_null_gps_payload(payload, payload_attrs)`. -/
def _parse_position_msg_null_gps_payload (payload : Bytes) : M AttrTree := do
  if pySlice payload 0 2 != [0xff, 0xff] then
    warn "Error: first two bytes of payload have unexpected value!"
  let b2 ← pyGet payload 2
  let b3 ← pyGet payload 3
  -- Python compares the int `payload[3]` with the bytes literal `b'\xff'`;
  -- an int never equals a bytes value, so this warning always fires
  warn "Error: fourth byte of payload has unexpected value!"
  let b4 ← pyGet payload 4
  let b5 ← pyGet payload 5
  pure [("(unused-1)", .raw (pySlice payload 0 2)),
    ("failing-message-event-id", _hexlify1 b2),
    ("(unused-2)", .nat b3),
    ("gps-failed-search-duration", .unit (b4 : ℚ) "s"),
    ("gps-failed-count", .nat b5),
    ("failing-message-event-last-bytes", _hexlify (pySlice payload 6 8))]

/-- `_parse_position_msg_position_payload(payload, payload_attrs)`. -/
def _parse_position_msg_position_payload (payload : Bytes) : M AttrTree := do
  let s6 ← pyGet payload 6
  let st ← _parse_position_msg_position_status s6
  let hs ← pyGet payload 7
  pure (_parse_position_lat_long (pySlice payload 0 6) ++
    [("status", .tree st),
     ("heading-speed", .tree (_parse_position_heading_speed hs))])

/-- `_parse_position_msg_payload(msg_type, msg_subtype, payload, payload_attrs)`. -/
def _parse_position_msg_payload (msg_type msg_subtype : String) (payload : Bytes) :
    M AttrTree := do
  let base : AttrTree ←
    match msg_subtype with
    | "radio-silence-in" => do
        if pySlice payload 0 6 != [0, 0, 0, 0, 0, 0] then
          warn "Error: first six bytes of payload have unexpected value!"
        let st ← _parse_position_radio_msg_status msg_subtype (pySlice payload 6 8)
        pure [("(unused)", _hexlify (pySlice payload 0 6)), ("status", .tree st)]
    | "radio-silence-out" => do
        let st ← _parse_position_radio_msg_status msg_subtype (pySlice payload 6 8)
        pure (_parse_position_lat_long (pySlice payload 0 6) ++ [("status", .tree st)])
    | "start-motion" | "stop-motion" | "in-motion" =>
        _parse_position_msg_motion_payload payload
    | "null-gps" => _parse_position_msg_null_gps_payload payload
    | "user-position" => do
        -- dead branch: the actual subtype string is "user-position-message"
        let ts := _parse_timestamp (pySlice payload 12 16)
        pure (_parse_position_lat_long (pySlice payload 0 6) ++
          [("user-data", _hexlify (pySlice payload 6 12)),
           ("timestamp", .tree ts)])
    | "position" => _parse_position_msg_position_payload payload
    | _ =>
        -- a Python `match` with no matching case falls through silently
        pure []
  if !(["unencrypted-chained-position", "encrypted-chained-position"].contains msg_type)
  then
    pure base
  else do
    -- the comparison string "user_position" (with an underscore) is as in
    -- the source; it can never equal a subtype string
    let chained ← _parse_position_msg_chain
      (if msg_subtype = "user_position" then pyDrop payload 16 else pyDrop payload 8)
    pure (base ++ [("chained-locations", .tree chained)])

/-- `_check_position_msg_length(msg_type, msg_subtype, expected_length, raw)`. -/
def _check_position_msg_length (msg_type msg_subtype : String) (expected_length : Nat)
    (raw : Bytes) : M Unit := do
  if !(["unencrypted-position", "encrypted-position"].contains msg_type) then
    pure ()
  else if raw.length != expected_length then
    warn ("Error: " ++ msg_subtype ++ " message has unexpected length " ++
      toString raw.length ++ "!")
  else
    pure ()

/-! ### TLV Messages (parse.py) -/

/-- `_tlv_header_types`. -/
def _tlv_header_types (b : Nat) : Option String :=
  if b = 0x1f then some "pad-tlv"
  else if b = 0x23 then some "config-updated"
  else if b = 0x2e then some "user-data"
  else if b = 0x4a then some "nak"
  else none

/-- `_parse_tlv(raw)`. -/
def _parse_tlv (raw : Bytes) : M (Nat × Nat × Bytes) := do
  let header ← pyGet raw 0
  let length ← pyGet raw 1
  pure (header, length, pyDrop raw 2)

/-- `_nak_reasons`. -/
def _nak_reasons (b : Nat) : Option String :=
  if b = 0x05 then some "improperly-formatted" else none

/-- `_parse_config_updated_tlv(length, value, tlv_attrs)`. -/
def _parse_config_updated_tlv (length : Nat) (value : Bytes) : M AttrTree := do
  if length != 2 then
    warn ("Error: unexpected TLV length " ++ toString length ++ "!")
  let config_command ← pyGet value 0
  let success_code ← pyGet value 1
  pure [("value-config-command-(hex)", _hexlify1 config_command),
    ("value-config-command", .nat config_command),
    ("value-success-code-(hex)", _hexlify1 success_code),
    ("value-success-code", .nat success_code)]

/-- `_parse_nak_tlv(length, value, tlv_attrs)`. -/
def _parse_nak_tlv (length : Nat) (value : Bytes) : M AttrTree := do
  if length != 1 then
    warn ("Error: unexpected TLV length " ++ toString length ++ "!")
  let reason ← pyGet value 0
  match _nak_reasons reason with
  | none => do
      warn ("Error: unexpected NAK reason 0x" ++ natHex reason)
      pure [("value-reason-(hex)", _hexlify1 reason)]
  | some r =>
      pure [("value-reason-(hex)", _hexlify1 reason), ("value-reason", .str r)]

/-! ### Engineering Messages (parse.py) -/

/-- `_eng_last_reset_types`. -/
def _eng_last_reset_types (b : Nat) : Option String :=
  if b = 0x00 then some "first-boot"
  else if b = 0x01 then some "hw-watchdog-reset"
  else if b = 0x02 then some "sw-watchdog-reset"
  else if b = 0x03 then some "sw-reset"
  else if b = 0x04 then some "cpu-lock-reset"
  else if b = 0x05 then some "power-detect-reset"
  else if b = 0x09 then some "power-on-reset"
  else none

/-- `_parse_eng_msg_payload_gps(payload_gps, payload_gps_attrs)`. -/
def _parse_eng_msg_payload_gps (payload_gps : Bytes) : M AttrTree := do
  let b0 ← pyGet payload_gps 0
  let failure_ratio := b0 &&& 0b111111
  let mean_fix_time ← pyGet payload_gps 1
  let mean_sv_num_per_fix ← pyGet payload_gps 2
  let mean_hdop ← pyGet payload_gps 3
  pure [("(hex)", _hexlify payload_gps), ("(bin)", _binifyBytes payload_gps 8),
    ("failure-ratio-(bin)", _binify1 failure_ratio 6),
    ("failure-ratio", .unit ((failure_ratio : ℚ) * 1.5) "%"),
    ("mean-search-time-(hex)", _hexlify1 mean_fix_time),
    ("mean-search-time", .unit (mean_fix_time : ℚ) "s"),
    ("mean-satellites-per-fix-(hex)", _hexlify1 mean_sv_num_per_fix),
    ("mean-satellites-per-fix", .nat mean_sv_num_per_fix),
    ("mean-horizontal-dilution-of-precision-(hex)", _hexlify1 mean_hdop),
    ("mean-horizontal-dilution-of-precision", .nat mean_hdop)]

/-- `_parse_eng_msg_payload_iridium(payload_iridium, payload_iridium_attrs)`. -/
def _parse_eng_msg_payload_iridium (payload_iridium : Bytes) : M AttrTree := do
  let b0 ← pyGet payload_iridium 0
  let acq_failure_ratio := _isolate_bits b0 4 0b1111
  let ts_net_failure_ratio := _isolate_bits b0 4 0b1111
  let transmit_attempts := pySlice payload_iridium 1 3
  let mean_acq_time ← pyGet payload_iridium 3
  let mean_tx_time ← pyGet payload_iridium 4
  let mean_tx_rssi ← pyGet payload_iridium 5
  pure [("(hex)", _hexlify payload_iridium), ("(bin)", _binifyBytes payload_iridium 8),
    ("acq-failure-ratio-(bin)", _binify1 acq_failure_ratio 3),
    ("acq-failure-ratio", .unit ((acq_failure_ratio : ℚ) * 6.7) "%"),
    ("ts/network-failure-ratio-(bin)", _binify1 ts_net_failure_ratio 3),
    ("ts/network-failure-ratio", .unit ((ts_net_failure_ratio : ℚ) * 6.7) "%"),
    ("transmit-attempts-(hex)", _hexlify transmit_attempts),
    ("transmit-attempts", .nat (intFromBytesBE transmit_attempts)),
    ("mean-acq-time-(hex)", _hexlify1 mean_acq_time),
    ("mean-acq-time", .unit (mean_acq_time : ℚ) "s"),
    ("mean-tx-time-(hex)", _hexlify1 mean_tx_time),
    ("mean-tx-time", .unit (mean_tx_time : ℚ) "s"),
    ("mean-rssi-at-tx-(hex)", _hexlify1 mean_tx_rssi),
    ("mean-rssi-at-tx", .nat (mean_tx_rssi * 100))]

/-- `_parse_eng_msg_payload_battery(payload_battery, payload_battery_attrs)`. -/
def _parse_eng_msg_payload_battery (payload_battery : Bytes) : M AttrTree := do
  let primary_charge ← pyGet payload_battery 0
  let secondary_charge ← pyGet payload_battery 1
  let secondary_surplus_deficit ← pyGet payload_battery 2
  -- the source applies `int.from_bytes(..., 'big', signed=True)` to
  -- `payload_battery[2]`, an int, which raises TypeError in Python
  let ssd ← intFromBytesOfInt secondary_surplus_deficit
  let secondary_usage_time ← pyGet payload_battery 3
  pure [("(hex)", _hexlify payload_battery),
    ("primary-charge-(hex)", _hexlify1 primary_charge),
    ("primary-charge", .unit (primary_charge : ℚ) "%"),
    ("secondary-charge-(hex)", _hexlify1 secondary_charge),
    ("secondary-charge", .unit (secondary_charge : ℚ) "%"),
    ("secondary-surplus/deficit-(hex)", _hexlify1 secondary_surplus_deficit),
    ("secondary-surplus/deficit", .unit (ssd : ℚ) "%"),
    ("secondary-usage-time-(hex)", _hexlify1 secondary_usage_time),
    ("secondary-usage-time", .unit (secondary_usage_time : ℚ) "%")]

/-- `_parse_eng_msg_payload_temperature(payload_temperature, attrs)`. -/
def _parse_eng_msg_payload_temperature (payload_temperature : Bytes) : M AttrTree := do
  let max_since_prev ← pyGet payload_temperature 0
  let min_since_prev ← pyGet payload_temperature 1
  let mean_since_prev ← pyGet payload_temperature 2
  pure [("(hex)", _hexlify payload_temperature),
    ("max-since-prev-eng-msg-(hex)", _hexlify1 max_since_prev),
    ("max-since-prev-eng-msg", .unit (max_since_prev : ℚ) "°C"),
    ("min-since-prev-eng-msg-(hex)", _hexlify1 min_since_prev),
    ("min-since-prev-eng-msg", .unit (min_since_prev : ℚ) "°C"),
    ("mean-since-prev-eng-msg-(hex)", _hexlify1 mean_since_prev),
    ("mean-since-prev-eng-msg", .unit (mean_since_prev : ℚ) "°C")]

/-- `_parse_twos_complement(value, width)`. -/
def _parse_twos_complement (value : Nat) (width : Nat) : Int :=
  if value &&& (1 <<< (width - 1)) != 0 then (value : Int) - ((1 <<< width : Nat) : Int)
  else (value : Int)

/-- `_parse_eng_msg_payload_acceleration(payload_acceleration, attrs)`. -/
def _parse_eng_msg_payload_acceleration (payload_acceleration : Bytes) :
    M AttrTree := do
  let b0 ← pyGet payload_acceleration 0
  let acc_x := _isolate_bits b0 4 0b1111
  let acc_y := b0 &&& 0b1111
  let b1 ← pyGet payload_acceleration 1
  let acc_z := _isolate_bits b1 4 0b111
  let b2 ← pyGet payload_acceleration 2
  let reserved := [b1 &&& 0b111, b2]
  pure [("(hex)", _hexlify payload_acceleration),
    ("(bin)", _binifyBytes payload_acceleration 8),
    ("x-(bin)", _binify1 acc_x 4),
    ("x", .unit ((_parse_twos_complement acc_x 4 : ℚ) * 0.25) "g"),
    ("y-(bin)", _binify1 acc_y 4),
    ("y", .unit ((_parse_twos_complement acc_y 4 : ℚ) * 0.25) "g"),
    ("z-(bin)", _binify1 acc_z 4),
    ("z", .unit ((_parse_twos_complement acc_z 4 : ℚ) * 0.25) "g"),
    ("(reserved)-(bin)", _binify reserved [4, 8])]

/-- `_parse_eng_msg_payload(payload, payload_attrs)`. -/
def _parse_eng_msg_payload (payload : Bytes) : M AttrTree := do
  let b0 ← pyGet payload 0
  let config_change_counter := _isolate_bits b0 6 0b11
  let gps ← _parse_eng_msg_payload_gps (pySlice payload 0 4)
  let b4 ← pyGet payload 4
  let powersave_ratio := _isolate_bits b4 4 0b111
  let last_reset_type := _isolate_bits b4 0 0b1111
  let resetFrag : AttrTree ←
    match _eng_last_reset_types last_reset_type with
    | none => do
        warn ("Error: unknown last reset type 0x" ++ natHex last_reset_type ++ "!")
        pure []
    | some r => pure [("last-reset-type", .str r)]
  let iridium ← _parse_eng_msg_payload_iridium (pySlice payload 5 11)
  let battery ← _parse_eng_msg_payload_battery (pySlice payload 11 15)
  let reserved := pySlice payload 15 20
  let temperature ← _parse_eng_msg_payload_temperature (pySlice payload 20 23)
  let acceleration ← _parse_eng_msg_payload_acceleration (pySlice payload 23 26)
  let mean_lux := pySlice payload 26 28
  let current_lux_ratio ← pyGet payload 28
  let system_status := pySlice payload 29 33
  pure ([("config-change-counter-(bin)", _binify1 config_change_counter 2),
    ("config-change-counter", .nat config_change_counter),
    ("gps", .tree gps),
    ("powersave-ratio-(bin)", _binify1 powersave_ratio 3),
    ("powersave-ratio", .unit ((powersave_ratio : ℚ) * 6.7) "%"),
    ("last-reset-type-(bin)", _binify1 last_reset_type 4),
    ("last-reset-type-(hex)", _hexlify1 last_reset_type)] ++
    resetFrag ++
    [("iridium", .tree iridium),
     ("battery", .tree battery),
     ("(reserved)-(hex)", _hexlify reserved),
     ("temperature", .tree temperature),
     ("acceleration", .tree acceleration),
     ("mean-light-intensity-(hex)", _hexlify mean_lux),
     ("mean-light-intensity", .unit ((intFromBytesBE mean_lux : Nat) : ℚ) "lux"),
     ("mean-charge-current-mean-light-intensity-ratio-(hex)",
       _hexlify1 current_lux_ratio),
     ("mean-charge-current-mean-light-intensity-ratio",
       .unit (current_lux_ratio : ℚ) "mA/lux"),
     ("system-status-(hex)", _hexlify system_status),
     ("system-status-(bin)", _binifyBytes system_status 8)])

/-! ### Encrypted Messages (parse.py) -/

/-- Values of the `_sbd_mo_encrypted_msg_types` dict. -/
def _sbd_mo_encrypted_msg_types_values : List String :=
  ["encrypted-position", "encrypted-tlv-data", "encrypted-chained-position",
   "encrypted-engineering"]

/-- Modelled from the spec: the external decrypt capability
`decrypt(key: bytes, ciphertext: bytes) -> bytes` provided by the `des`
module, whose source is not included here.  The spec treats it as a pure,
possibly-failing transformation that fails with a `DecryptionError` on a
malformed ciphertext or key; the caller observes the failure as the
`ValueError` it catches. -/
def DecryptCap : Type := Bytes → Bytes → Except Unit Bytes

/-- `_decrypt_payload(msg_type, payload, key, payload_attrs)`: the attribute
fragment appended to `payload_attrs`, with the returned payload (`none`
models Python's `return None`).  The key reaching the decoder is either
`None` or a `bytes` value (the CLI unhexlifies the key file's text), so
Python's `key == ''` comparison of bytes against a str is always False and
only `key is None` selects the missing-key branch. -/
def _decrypt_payload (dec : DecryptCap) (msg_type : String) (payload : Bytes)
    (key : Option Bytes) : M (AttrTree × Option Bytes) := do
  if !(_sbd_mo_encrypted_msg_types_values.contains msg_type) then
    pure ([], some payload)
  else
    let frag : AttrTree := [("(ciphertext)-(hex)", _hexlify payload)]
    match key with
    | none => do
        warn "Warning: missing a key to decrypt the payload!"
        pure (frag, none)
    | some k =>
        match dec k payload with
        | .ok plaintext => pure (frag, some plaintext)
        | .error _ => do
            warn "Error: couldn't decrypt payload"
            pure (frag, none)

/-! ### All Messages (parse.py) -/

/-- `_sbd_mo_msg_types`. -/
def _sbd_mo_msg_types (b : Nat) : Option String :=
  if b = 0x00 then some "unencrypted-position"
  else if b = 0x01 then some "encrypted-position"
  else if b = 0x02 then some "encrypted-tlv-data"
  else if b = 0x35 then some "unencrypted-tlv-data"
  else if b = 0x37 then some "unencrypted-chained-position"
  else if b = 0x38 then some "encrypted-chained-position"
  else if b = 0x39 then some "unencrypted-engineering"
  else if b = 0x3a then some "encrypted-engineering"
  else none

/-- `_check_msg_length(msg_type, raw, min_len, max_len)`. -/
def _check_msg_length (msg_type : String) (raw : Bytes) (min_len max_len : Nat) :
    M Unit := do
  if raw.length < min_len || raw.length > max_len then
    warn ("Error: " ++ msg_type ++ " message has unexpected length " ++
      toString raw.length ++ "!")

namespace IridiumSBD

/-- `IridiumSBD._parse_position_msg(self, msg_type, raw, key)`: the entries
appended to `self.attrs`. -/
def _parse_position_msg (dec : DecryptCap) (msg_type : String) (raw : Bytes)
    (key : Option Bytes) : M AttrTree := do
  let h0 ← pyGet raw 0
  let (headerTree, subtypeOpt) ← _parse_position_msg_header h0
  let a0 : AttrTree := [("position-message-header", .tree headerTree)]
  match subtypeOpt with
  | none => pure a0
  | some msg_subtype => do
      (match msg_subtype with
       | "user-position" =>
           -- dead branch: the actual subtype string is "user-position-message"
           _check_position_msg_length msg_type msg_subtype 17 raw
       | _ => _check_position_msg_length msg_type msg_subtype 9 raw)
      let (ctFrag, parseable?) ← _decrypt_payload dec msg_type (pyDrop raw 1) key
      match parseable? with
      | none => pure (a0 ++ [("payload", .tree ctFrag)])
      | some parseable_payload => do
          let p ← _parse_position_msg_payload msg_type msg_subtype parseable_payload
          pure (a0 ++ [("payload",
            .tree (ctFrag ++ [("(hex)", _hexlify parseable_payload)] ++ p))])

/-- `IridiumSBD._parse_tlv_data_msg(self, raw)`: the entries appended to
`self.attrs`.  The `crc` entry's `f'0x...'` display string is modelled by
the bytes it renders. -/
def _parse_tlv_data_msg (raw : Bytes) : M AttrTree := do
  let (header, length, value) ← _parse_tlv (pySlice raw 0 ((raw.length : Int) - 3))
  let headerFrag : AttrTree × Option String ←
    match _tlv_header_types header with
    | none => do
        warn ("Error: unexpected header type 0x" ++ natHex header ++ "!")
        pure ([], none)
    | some header_type => pure ([("type", .str header_type)], some header_type)
  if length != value.length then
    warn ("Error: inconsistent TLV lengths " ++ toString length ++ " and " ++
      toString value.length ++ "!")
  let dispatchFrag : AttrTree ←
    match headerFrag.2 with
    | some "pad-tlv" => pure []
    | some "config-updated" => _parse_config_updated_tlv length value
    | some "user-data" => pure []
    | some "nak" => _parse_nak_tlv length value
    | _ => do
        warn ("Error: unknown TLV header type 0x" ++ natHex header ++ "!")
        pure []
  pure [("tlv", .tree
      ([("(hex)", _hexlify raw), ("type-(hex)", _hexlify1 header)] ++
        headerFrag.1 ++
        [("length", .nat length), ("value-(hex)", _hexlify value)] ++
        dispatchFrag)),
    ("crc", .hex (pySlice raw ((raw.length : Int) - 3) (raw.length : Int)))]

/-- `IridiumSBD._parse_eng_msg(self, msg_type, raw, key)`: the entries
appended to `self.attrs`. -/
def _parse_eng_msg (dec : DecryptCap) (msg_type : String) (raw : Bytes)
    (key : Option Bytes) : M AttrTree := do
  let a0 : AttrTree := [("engineering-message-header", .tree [])]
  let (ctFrag, parseable?) ← _decrypt_payload dec msg_type raw key
  match parseable? with
  | none => pure (a0 ++ [("payload", .tree ctFrag)])
  | some parseable_payload => do
      let p ← _parse_eng_msg_payload parseable_payload
      pure (a0 ++ [("payload",
        .tree (ctFrag ++ [("(hex)", _hexlify parseable_payload)] ++ p))])

/-- `IridiumSBD.load(self, raw, key)`: builds `self.attrs`. -/
def load (dec : DecryptCap) (raw : Bytes) (key : Option Bytes) : M AttrTree := do
  let b0 ← pyGet raw 0
  let a0 : AttrTree := [("(hex)", _hexlify raw), ("message-type-(hex)", _hexlify1 b0)]
  match _sbd_mo_msg_types b0 with
  | none => do
      warn ("Error: Unexpected message type 0x" ++ natHex b0 ++ "!")
      pure a0
  | some msg_type => do
      let a1 := a0 ++ [("message-type", .str msg_type)]
      -- the source's `if msg_type in _sbd_mo_encrypted_msg_types:` tests the
      -- dict's KEYS, which are ints; a str never equals an int, so the
      -- [10, 66] length check guarded by it is dead code
      match msg_type with
      | "unencrypted-position" | "encrypted-position" => do
          _check_msg_length msg_type raw 10 18
          let sub ← _parse_position_msg dec msg_type (pyDrop raw 1) key
          pure (a1 ++ sub)
      | "encrypted-tlv-data" => do
          -- note: no decryption happens for this type; the TLV parser is
          -- called directly on the raw (still-encrypted) bytes
          _check_msg_length msg_type raw 12 66
          let sub ← _parse_tlv_data_msg (pyDrop raw 1)
          pure (a1 ++ sub)
      | "unencrypted-tlv-data" => do
          _check_msg_length msg_type raw 7 66
          let sub ← _parse_tlv_data_msg (pyDrop raw 1)
          pure (a1 ++ sub)
      | "unencrypted-chained-position" | "encrypted-chained-position" => do
          _check_msg_length msg_type raw 8 66
          let sub ← _parse_position_msg dec msg_type (pyDrop raw 1) key
          pure (a1 ++ sub)
      | "unencrypted-engineering" | "encrypted-engineering" => do
          _check_msg_length msg_type raw 33 33
          let sub ← _parse_eng_msg dec msg_type (pyDrop raw 1) key
          pure (a1 ++ sub)
      | _ =>
          -- unreachable: `_sbd_mo_msg_types` only returns the strings above
          pure a1

end IridiumSBD

/-! ### Spec-side definitions and helpers for the claims -/

/-- The spec's latitude formula: with `v` the big-endian unsigned 24-bit
integer of the 3 latitude bytes and `threshold = 2^23/90`, the latitude is
`-(180 - v/threshold)` when `v/threshold > 90` and `v/threshold` otherwise. -/
def specLatitude (v : Nat) : ℚ :=
  let threshold : ℚ := 2 ^ 23 / 90
  if (v : ℚ) / threshold > 90 then -(180 - (v : ℚ) / threshold)
  else (v : ℚ) / threshold

/-- The spec's longitude formula: with `w` the big-endian unsigned 24-bit
integer of the 3 longitude bytes and `threshold = 2^23/180`, the longitude
is `-(360 - w/threshold)` when `w/threshold > 180` and `w/threshold`
otherwise. -/
def specLongitude (w : Nat) : ℚ :=
  let threshold : ℚ := 2 ^ 23 / 180
  if (w : ℚ) / threshold > 180 then -(360 - (w : ℚ) / threshold)
  else (w : ℚ) / threshold

/-- The spec's delta-time weight table `{30s, 2m, 15m, 1h, 4h, 8h, 12h, 24h}`
selected by the 3-bit field, in seconds. -/
def specTimeWeightSecs (w : Nat) : Nat :=
  if w = 0 then 30
  else if w = 1 then 120
  else if w = 2 then 900
  else if w = 3 then 3600
  else if w = 4 then 14400
  else if w = 5 then 28800
  else if w = 6 then 43200
  else 86400

mutual

/-- Whether an attribute value contains, anywhere in a nested tree, an entry
with the given key. -/
def attrHasKey : Attr → String → Bool
  | .tree ts, k => treeHasKey ts k
  | _, _ => false

/-- Whether any entry of the list has the given key at any nesting depth. -/
def treeHasKey : List (String × Attr) → String → Bool
  | [], _ => false
  | (k0, v) :: rest, k => k0 == k || attrHasKey v k || treeHasKey rest k

end

/-- Whether an attribute tree contains an entry with the given key at any
nesting depth. -/
def hasKeyDeep (t : AttrTree) (k : String) : Bool := treeHasKey t k

/-- The value bytes suffice for the TLV type-specific sub-parser:
`config-updated` reads `value[0]` and `value[1]`, `nak` reads `value[0]`,
every other type reads nothing. -/
def tlvValueLenOk (header : Nat) (value : Bytes) : Prop :=
  match _tlv_header_types header with
  | some "config-updated" => 2 ≤ value.length
  | some "nak" => 1 ≤ value.length
  | _ => True

/-- Whether a decode finished without a Python exception. -/
def resultOk {α : Type} (r : Except PyErr α × List String) : Bool :=
  match r.1 with
  | .ok _ => true
  | .error _ => false

/-- The attribute tree of a decode result (empty tree on an exception). -/
def resultTreeD (r : Except PyErr AttrTree × List String) : AttrTree :=
  match r.1 with
  | .ok attrs => attrs
  | .error _ => []

/-- The nested subtree stored under a key (empty when absent or scalar). -/
def lookupTree (t : AttrTree) (k : String) : AttrTree :=
  match t.lookup k with
  | some (.tree s) => s
  | _ => []

/-- The warnings that `_check_position_msg_length` prints, in isolation. -/
def positionLengthWarnings (mt sub : String) (e : Nat) (raw : Bytes) : List String :=
  (runM (_check_position_msg_length mt sub e raw)).2

/-! ### Monad computation lemmas -/

@[simp] theorem bind_def {α β : Type} (m : M α) (f : α → M β) (w : List String) :
    (m >>= f) w =
      match m w with
      | (.ok a, w') => f a w'
      | (.error e, w') => (.error e, w') := rfl

@[simp] theorem pure_def {α : Type} (a : α) (w : List String) :
    (pure a : M α) w = (.ok a, w) := rfl

@[simp] theorem warn_def (s : String) (w : List String) :
    warn s w = (.ok (), w ++ [s]) := rfl

@[simp] theorem throwErr_def {α : Type} (e : PyErr) (w : List String) :
    (throwErr e : M α) w = (.error e, w) := rfl

theorem check_position_msg_length_frame (mt sub : String) (e : Nat) (raw : Bytes)
    (w : List String) :
    _check_position_msg_length mt sub e raw w =
      (.ok (), w ++ positionLengthWarnings mt sub e raw) := by
  by_cases hc1 : mt = "unencrypted-position" <;>
    by_cases hc2 : mt = "encrypted-position" <;>
      rcases Bool.eq_false_or_eq_true (raw.length != e) with hl | hl <;>
        simp [_check_position_msg_length, positionLengthWarnings, runM, hc1, hc2, hl]

/-! ### Claims -/

/-- C1: for every input byte sequence whose first byte is not one of the eight
known message-type values, `load` records the unknown-type diagnostic and
returns a tree holding only the raw-input hex echo and the
`message-type-(hex)` field — no decoded fields — and raises no exception. -/
theorem C1_unknown_type_partial_tree (dec : DecryptCap) (raw : Bytes)
    (key : Option Bytes) (b : Nat) (hhead : raw.head? = some b)
    (h00 : b ≠ 0x00) (h01 : b ≠ 0x01) (h02 : b ≠ 0x02) (h35 : b ≠ 0x35)
    (h37 : b ≠ 0x37) (h38 : b ≠ 0x38) (h39 : b ≠ 0x39) (h3a : b ≠ 0x3a) :
    runM (IridiumSBD.load dec raw key) =
      (.ok [("(hex)", .hex raw), ("message-type-(hex)", .hex [b])],
       ["Error: Unexpected message type 0x" ++ natHex b ++ "!"]) := by
  have hmt : _sbd_mo_msg_types b = none := by
    simp [_sbd_mo_msg_types, h00, h01, h02, h35, h37, h38, h39, h3a]
  cases raw with
  | nil => simp [List.head?] at hhead
  | cons a t =>
      obtain rfl : a = b := by simpa [List.head?] using hhead
      simp [runM, IridiumSBD.load, pyGet, hmt, _hexlify, _hexlify1]

/-- C1 witness at the one-byte message `0xFF`. -/
theorem C1_unknown_type_partial_tree_witness :
    runM (IridiumSBD.load (fun _ _ => Except.error ()) [0xFF] none) =
      (.ok [("(hex)", .hex [0xFF]), ("message-type-(hex)", .hex [0xFF])],
       ["Error: Unexpected message type 0x" ++ natHex 0xFF ++ "!"]) :=
  C1_unknown_type_partial_tree _ [0xFF] none 0xFF rfl
    (by decide) (by decide) (by decide) (by decide)
    (by decide) (by decide) (by decide) (by decide)

/-- C2 (code bug): the subtype table maps `0x17` to the string
`"user-position-message"`, while every `match` arm is written for
`"user-position"`, so on a position message with header byte `0x17` the
decoder falls into the catch-all arms: it prints the unexpected-subtype
diagnostic, populates neither `message-count` nor `gps-quality`, and the
payload keeps only its hex echo — no lat/long, no `user-data`, no
`timestamp` — contrary to the claim. -/
theorem C2_user_position_subtype_never_decoded :
    runM (IridiumSBD.load (fun _ _ => Except.error ())
        (0x00 :: 0x17 :: List.replicate 16 0) none) =
      (.ok [("(hex)", .hex (0x00 :: 0x17 :: List.replicate 16 0)),
            ("message-type-(hex)", .hex [0x00]),
            ("message-type", .str "unencrypted-position"),
            ("position-message-header", .tree
              [("(hex)", .hex [0x17]), ("(bin)", .bin [0x17] [8]),
               ("message-subtype-(bin)", .bin [0x17] [5]),
               ("message-subtype-(hex)", .hex [0x17]),
               ("message-subtype", .str "user-position-message")]),
            ("payload", .tree [("(hex)", .hex (List.replicate 16 0))])],
       ["Error: unexpected message subtype user-position-message!",
        "Error: user-position-message message has unexpected length 17!"]) := by
  rfl

/-- C3: every 6-byte lat/long field decodes its `latitude-(decimal)` and
`longitude-(decimal)` exactly by the spec's threshold formulas applied to the
big-endian 24-bit integers of the first and last 3 bytes. -/
theorem C3_lat_long_codec (bs : Bytes) (h : bs.length = 6) :
    ((_parse_position_lat_long bs).lookup "latitude-(decimal)" =
       some (.unit (specLatitude (intFromBytesBE (bs.take 3))) "°")) ∧
    ((_parse_position_lat_long bs).lookup "longitude-(decimal)" =
       some (.unit (specLongitude (intFromBytesBE (bs.drop 3))) "°")) := by
  have h1 : pySlice bs 0 3 = bs.take 3 := by
    simp [pySlice, pyIdx, h]
  have h2 : pySlice bs 3 6 = bs.drop 3 := by
    simp [pySlice, pyIdx, h]
    rw [List.take_of_length_le (by omega)]
  have hneg : ∀ x : ℚ, -1 * x = -x := fun x => by ring
  constructor <;>
    simp [_parse_position_lat_long, specLatitude, specLongitude, List.lookup,
      h1, h2, hneg]

/-- C3 witness at a concrete 6-byte field. -/
theorem C3_lat_long_codec_witness :
    (([0x12, 0x34, 0x56, 0xAB, 0xCD, 0xEF] : Bytes).length = 6) ∧
    ((_parse_position_lat_long [0x12, 0x34, 0x56, 0xAB, 0xCD, 0xEF]).lookup
        "latitude-(decimal)" =
      some (.unit (specLatitude (intFromBytesBE
        (([0x12, 0x34, 0x56, 0xAB, 0xCD, 0xEF] : Bytes).take 3))) "°")) ∧
    ((_parse_position_lat_long [0x12, 0x34, 0x56, 0xAB, 0xCD, 0xEF]).lookup
        "longitude-(decimal)" =
      some (.unit (specLongitude (intFromBytesBE
        (([0x12, 0x34, 0x56, 0xAB, 0xCD, 0xEF] : Bytes).drop 3))) "°")) :=
  ⟨rfl, (C3_lat_long_codec [0x12, 0x34, 0x56, 0xAB, 0xCD, 0xEF] rfl).1,
    (C3_lat_long_codec [0x12, 0x34, 0x56, 0xAB, 0xCD, 0xEF] rfl).2⟩

/-- C4 counterexample: an `encrypted-tlv-data` (`0x02`) message is routed to
the TLV parser without any decryption, so no `(ciphertext)-(hex)` field is
recorded anywhere in the tree even though `0x02` is an encrypted message
type and no key was supplied — refuting the claim for `0x02`. -/
theorem C4_encrypted_tlv_no_ciphertext_cex :
    (runM (IridiumSBD.load (fun _ _ => Except.error ())
        [0x02, 0x23, 0x02, 0xAA, 0xBB, 0x01, 0x02, 0x03] none) =
      (.ok [("(hex)", .hex [0x02, 0x23, 0x02, 0xAA, 0xBB, 0x01, 0x02, 0x03]),
            ("message-type-(hex)", .hex [0x02]),
            ("message-type", .str "encrypted-tlv-data"),
            ("tlv", .tree
              [("(hex)", .hex [0x23, 0x02, 0xAA, 0xBB, 0x01, 0x02, 0x03]),
               ("type-(hex)", .hex [0x23]),
               ("type", .str "config-updated"),
               ("length", .nat 2),
               ("value-(hex)", .hex [0xAA, 0xBB]),
               ("value-config-command-(hex)", .hex [0xAA]),
               ("value-config-command", .nat 0xAA),
               ("value-success-code-(hex)", .hex [0xBB]),
               ("value-success-code", .nat 0xBB)]),
            ("crc", .hex [0x01, 0x02, 0x03])],
       ["Error: encrypted-tlv-data message has unexpected length 8!"])) ∧
    (hasKeyDeep
        [("(hex)", .hex [0x02, 0x23, 0x02, 0xAA, 0xBB, 0x01, 0x02, 0x03]),
         ("message-type-(hex)", .hex [0x02]),
         ("message-type", .str "encrypted-tlv-data"),
         ("tlv", .tree
           [("(hex)", .hex [0x23, 0x02, 0xAA, 0xBB, 0x01, 0x02, 0x03]),
            ("type-(hex)", .hex [0x23]),
            ("type", .str "config-updated"),
            ("length", .nat 2),
            ("value-(hex)", .hex [0xAA, 0xBB]),
            ("value-config-command-(hex)", .hex [0xAA]),
            ("value-config-command", .nat 0xAA),
            ("value-success-code-(hex)", .hex [0xBB]),
            ("value-success-code", .nat 0xBB)]),
         ("crc", .hex [0x01, 0x02, 0x03])] "(ciphertext)-(hex)" = false) :=
  ⟨rfl, rfl⟩

/-- C4 amended: for the encrypted message types that are routed through the
decryption gate (`encrypted-position` `0x01`, `encrypted-chained-position`
`0x38`, `encrypted-engineering` `0x3a` — but not `encrypted-tlv-data` `0x02`,
which is parsed as plaintext TLV), once the position header byte parses to a
recognized subtype the post-header payload bytes are recorded first as
`(ciphertext)-(hex)`; with a missing key or failing decryption the payload
decode is abandoned with the corresponding warning, every field already
produced (header section included) is kept, and no exception is raised. -/
theorem C4_decryption_gate_abandons (dec : DecryptCap) (mt : String) (h : Nat)
    (rest : Bytes) (key : Option Bytes) (H : AttrTree) (sub : String)
    (Wh : List String)
    (hmt : mt = "encrypted-position" ∨ mt = "encrypted-chained-position")
    (hhdr : runM (_parse_position_msg_header h) = (.ok (H, some sub), Wh))
    (hsub : sub ≠ "user-position")
    (hkey : key = none ∨ ∃ k, key = some k ∧ dec k rest = Except.error ()) :
    (runM (IridiumSBD._parse_position_msg dec mt (h :: rest) key) =
      (.ok [("position-message-header", .tree H),
            ("payload", .tree [("(ciphertext)-(hex)", .hex rest)])],
       Wh ++ positionLengthWarnings mt sub 9 (h :: rest) ++
         [match key with
          | none => "Warning: missing a key to decrypt the payload!"
          | some _ => "Error: couldn't decrypt payload"])) ∧
    (runM (IridiumSBD._parse_eng_msg dec "encrypted-engineering" rest key) =
      (.ok [("engineering-message-header", .tree []),
            ("payload", .tree [("(ciphertext)-(hex)", .hex rest)])],
       [match key with
        | none => "Warning: missing a key to decrypt the payload!"
        | some _ => "Error: couldn't decrypt payload"])) := by
  have hhdr' : _parse_position_msg_header h [] = (.ok (H, some sub), Wh) := hhdr
  constructor
  · rcases hkey with rfl | ⟨k, rfl, hk⟩ <;> rcases hmt with rfl | rfl
    · simp [runM, IridiumSBD._parse_position_msg, pyGet, hhdr', hsub,
        check_position_msg_length_frame, _decrypt_payload,
        _sbd_mo_encrypted_msg_types_values, _hexlify, pyDrop]
    · simp [runM, IridiumSBD._parse_position_msg, pyGet, hhdr', hsub,
        check_position_msg_length_frame, _decrypt_payload,
        _sbd_mo_encrypted_msg_types_values, _hexlify, pyDrop]
    · simp [runM, IridiumSBD._parse_position_msg, pyGet, hhdr', hsub,
        check_position_msg_length_frame, _decrypt_payload,
        _sbd_mo_encrypted_msg_types_values, _hexlify, pyDrop, hk]
    · simp [runM, IridiumSBD._parse_position_msg, pyGet, hhdr', hsub,
        check_position_msg_length_frame, _decrypt_payload,
        _sbd_mo_encrypted_msg_types_values, _hexlify, pyDrop, hk]
  · rcases hkey with rfl | ⟨k, rfl, hk⟩
    · simp [runM, IridiumSBD._parse_eng_msg, _decrypt_payload,
        _sbd_mo_encrypted_msg_types_values, _hexlify]
    · simp [runM, IridiumSBD._parse_eng_msg, _decrypt_payload,
        _sbd_mo_encrypted_msg_types_values, _hexlify, hk]

/-- C4 amended witness: an `encrypted-position` message with header `0x1b`
and no key, and an `encrypted-engineering` message with no key. -/
theorem C4_decryption_gate_abandons_witness :
    (runM (IridiumSBD._parse_position_msg (fun _ _ => Except.error ())
        "encrypted-position" [0x1b, 0x09, 0x09, 0x09] none) =
      (.ok [("position-message-header", .tree
              [("(hex)", .hex [0x1b]), ("(bin)", .bin [0x1b] [8]),
               ("powersave-mode-(bin)", .bin [0] [1]),
               ("powersave-mode", .bool false),
               ("secondary-over-50%-(bin)", .bin [0] [1]),
               ("secondary-over-50%", .bool false),
               ("gps-quality-(bin)", .bin [0] [1]),
               ("gps-quality", .str "2D"),
               ("message-subtype-(bin)", .bin [0x1b] [5]),
               ("message-subtype-(hex)", .hex [0x1b]),
               ("message-subtype", .str "position")]),
            ("payload", .tree [("(ciphertext)-(hex)", .hex [0x09, 0x09, 0x09])])],
       [] ++ positionLengthWarnings "encrypted-position" "position" 9
           [0x1b, 0x09, 0x09, 0x09] ++
         ["Warning: missing a key to decrypt the payload!"])) ∧
    (runM (IridiumSBD._parse_eng_msg (fun _ _ => Except.error ())
        "encrypted-engineering" [0x09, 0x09, 0x09] none) =
      (.ok [("engineering-message-header", .tree []),
            ("payload", .tree [("(ciphertext)-(hex)", .hex [0x09, 0x09, 0x09])])],
       ["Warning: missing a key to decrypt the payload!"])) :=
  C4_decryption_gate_abandons (fun _ _ => Except.error ()) "encrypted-position"
    0x1b [0x09, 0x09, 0x09] none
    [("(hex)", .hex [0x1b]), ("(bin)", .bin [0x1b] [8]),
     ("powersave-mode-(bin)", .bin [0] [1]), ("powersave-mode", .bool false),
     ("secondary-over-50%-(bin)", .bin [0] [1]), ("secondary-over-50%", .bool false),
     ("gps-quality-(bin)", .bin [0] [1]), ("gps-quality", .str "2D"),
     ("message-subtype-(bin)", .bin [0x1b] [5]),
     ("message-subtype-(hex)", .hex [0x1b]),
     ("message-subtype", .str "position")]
    "position" [] (Or.inl rfl) (by rfl) (by decide) (Or.inl rfl)

/-- C5 (code bug): an engineering message of length 1 records the
length-mismatch warning but then raises `IndexError` while extracting fields
from the empty payload; and even a well-formed 33-byte engineering message
raises `TypeError` in the battery block, where `int.from_bytes` is applied to
an int — so field extraction never completes, contrary to the claim of
out-of-bounds-free best-effort extraction. -/
theorem C5_engineering_extraction_raises :
    (runM (IridiumSBD.load (fun _ _ => Except.error ()) [0x39] none) =
      (.error .indexError,
       ["Error: unencrypted-engineering message has unexpected length 1!"])) ∧
    (runM (IridiumSBD.load (fun _ _ => Except.error ())
        (0x39 :: List.replicate 32 0) none) =
      (.error .typeError, [])) :=
  ⟨rfl, rfl⟩

/-- C6: for every delta-time byte, the decoded duration is the 5-bit
multiplier (bits 0-4) times the table weight selected by the 3-bit field
(bits 5-7); a zero multiplier yields the `>31 days` sentinel for every
weight.  At `0xFF` (witness) the duration is `31 * 86400 s = 744` hours. -/
theorem C6_delta_time_duration (dt : Nat) (hdt : dt < 256) :
    runM (_parse_chained_location_delta_time dt) =
      (.ok [("(bin)", .bin [dt] [8]),
        ("(weight)-(bin)", .bin [_isolate_bits dt 5 0b111] [3]),
        ("(weight)", .duration (specTimeWeightSecs (_isolate_bits dt 5 0b111))),
        ("(multiplier)-(bin)", .bin [dt &&& 0b11111] [5]),
        ("(multiplier)", .nat (dt &&& 0b11111)),
        ("duration", if dt &&& 0b11111 = 0 then .str ">31 days"
          else .duration ((dt &&& 0b11111) *
            specTimeWeightSecs (_isolate_bits dt 5 0b111)))],
       []) := by
  have hw : _isolate_bits dt 5 0b111 ≤ 7 := by
    have h1 : dt &&& (0b111 <<< 5) ≤ 0b111 <<< 5 := Nat.and_le_right
    simp only [_isolate_bits, Nat.shiftRight_eq_div_pow]
    omega
  have h7 : _isolate_bits dt 5 0b111 = 0 ∨ _isolate_bits dt 5 0b111 = 1 ∨
      _isolate_bits dt 5 0b111 = 2 ∨ _isolate_bits dt 5 0b111 = 3 ∨
      _isolate_bits dt 5 0b111 = 4 ∨ _isolate_bits dt 5 0b111 = 5 ∨
      _isolate_bits dt 5 0b111 = 6 ∨ _isolate_bits dt 5 0b111 = 7 := by omega
  rcases h7 with h | h | h | h | h | h | h | h <;>
    simp [runM, _parse_chained_location_delta_time, timeWeightAt, _time_weights,
      specTimeWeightSecs, h, Nat.mul_eq_zero, _binify1]

/-- C6 witness: `0xFF` has multiplier 31 and weight `0b111` (24 h), and
`31 * 86400 s` is 744 hours (31 days). -/
theorem C6_delta_time_duration_witness :
    (0xFF : Nat) < 256 ∧ (0xFF &&& 0b11111) * specTimeWeightSecs 7 = 744 * 3600 ∧
    runM (_parse_chained_location_delta_time 0xFF) =
      (.ok [("(bin)", .bin [0xFF] [8]),
        ("(weight)-(bin)", .bin [_isolate_bits 0xFF 5 0b111] [3]),
        ("(weight)", .duration (specTimeWeightSecs (_isolate_bits 0xFF 5 0b111))),
        ("(multiplier)-(bin)", .bin [0xFF &&& 0b11111] [5]),
        ("(multiplier)", .nat (0xFF &&& 0b11111)),
        ("duration", if 0xFF &&& 0b11111 = 0 then .str ">31 days"
          else .duration ((0xFF &&& 0b11111) *
            specTimeWeightSecs (_isolate_bits 0xFF 5 0b111)))],
       []) :=
  ⟨by decide, by decide, C6_delta_time_duration 0xFF (by decide)⟩

/-- C7 (code bug): both `acq-failure-ratio` and `ts/network-failure-ratio`
are computed from the identical expression
`_isolate_bits(payload_iridium[0], 4, mask=0b1111)` — one 4-bit field
(bits 4-7 of the block's first byte), not two distinct 3-bit fields.  On a
block starting with `0xA5` the shared raw field is 10 (not representable in
3 bits) and both ratios decode to `10 * 6.7 = 67 %`. -/
theorem C7_iridium_ratios_share_one_field :
    runM (_parse_eng_msg_payload_iridium [0xA5, 0x00, 0x00, 0x10, 0x20, 0x30]) =
      (.ok [("(hex)", .hex [0xA5, 0x00, 0x00, 0x10, 0x20, 0x30]),
        ("(bin)", .bin [0xA5, 0x00, 0x00, 0x10, 0x20, 0x30] [8, 8, 8, 8, 8, 8]),
        ("acq-failure-ratio-(bin)", .bin [10] [3]),
        ("acq-failure-ratio", .unit 67 "%"),
        ("ts/network-failure-ratio-(bin)", .bin [10] [3]),
        ("ts/network-failure-ratio", .unit 67 "%"),
        ("transmit-attempts-(hex)", .hex [0x00, 0x00]),
        ("transmit-attempts", .nat 0),
        ("mean-acq-time-(hex)", .hex [0x10]),
        ("mean-acq-time", .unit 16 "s"),
        ("mean-tx-time-(hex)", .hex [0x20]),
        ("mean-tx-time", .unit 32 "s"),
        ("mean-rssi-at-tx-(hex)", .hex [0x30]),
        ("mean-rssi-at-tx", .nat 4800)],
       []) := by
  have hb : (165 &&& 240) >>> 4 = 10 := by decide
  simp [runM, _parse_eng_msg_payload_iridium, pyGet, pySlice, pyIdx,
    _isolate_bits, _hexlify, _hexlify1, _binify1, _binifyBytes, intFromBytesBE, hb]
  norm_num

/-- C8 counterexample: the header byte `0x34` has null-gps subtype
(low 5 bits `0x14`), bit 5 set, and bits 6-7 equal to `0b00` — the claim
demands a warning for bits 6-7 different from `0b11`, yet the decoder emits
none (the warnings list is empty). -/
theorem C8_null_gps_bits67_cex :
    runM (_parse_position_msg_header 0x34) =
      (.ok ([("(hex)", .hex [0x34]), ("(bin)", .bin [0x34] [8]),
             ("(unused)-(bin)", .bin [0] [2]),
             ("powersave-mode-(bin)", .bin [1] [1]),
             ("powersave-mode", .bool true),
             ("message-subtype-(bin)", .bin [0x14] [5]),
             ("message-subtype-(hex)", .hex [0x14]),
             ("message-subtype", .str "null-gps")], some "null-gps"),
       []) := by
  rfl

/-- C8 amended: for every null-gps header byte the decoder reads
`powersave-mode` from bit 5, records bits 6-7 as unused without any check,
and emits the header warning if and only if bit 5 is not 1; the mismatch is
never fatal (the parse always returns ok). -/
theorem C8_null_gps_header_bit5 (h : Nat) (hsub : h &&& 0b11111 = 0x14) :
    runM (_parse_position_msg_header h) =
      (.ok ([("(hex)", .hex [h]), ("(bin)", .bin [h] [8]),
             ("(unused)-(bin)", .bin [_isolate_bits h 6 0b11] [2]),
             ("powersave-mode-(bin)", .bin [_isolate_bits h 5] [1]),
             ("powersave-mode", .bool (_isolate_bits h 5 != 0)),
             ("message-subtype-(bin)", .bin [0x14] [5]),
             ("message-subtype-(hex)", .hex [0x14]),
             ("message-subtype", .str "null-gps")], some "null-gps"),
       if _isolate_bits h 5 != 1 then
         ["Error: bit 5 of message header has unexpected value!"] else []) := by
  rcases Bool.eq_false_or_eq_true (_isolate_bits h 5 != 1) with hbit | hbit <;>
    simp [runM, _parse_position_msg_header, hsub, _position_msg_subtypes,
      _parse_bool_flag, _binify1, _hexlify1, hbit]

/-- C8 amended witness at `0xD4`: bits 6-7 are `0b11` yet the warning fires,
because bit 5 is 0. -/
theorem C8_null_gps_header_bit5_witness :
    ((0xD4 : Nat) &&& 0b11111 = 0x14) ∧
    runM (_parse_position_msg_header 0xD4) =
      (.ok ([("(hex)", .hex [0xD4]), ("(bin)", .bin [0xD4] [8]),
             ("(unused)-(bin)", .bin [_isolate_bits 0xD4 6 0b11] [2]),
             ("powersave-mode-(bin)", .bin [_isolate_bits 0xD4 5] [1]),
             ("powersave-mode", .bool (_isolate_bits 0xD4 5 != 0)),
             ("message-subtype-(bin)", .bin [0x14] [5]),
             ("message-subtype-(hex)", .hex [0x14]),
             ("message-subtype", .str "null-gps")], some "null-gps"),
       if _isolate_bits 0xD4 5 != 1 then
         ["Error: bit 5 of message header has unexpected value!"] else []) :=
  ⟨by decide, C8_null_gps_header_bit5 0xD4 (by decide)⟩

/-- C9 counterexample: the TLV-data message `35 23 05 00 00 00` has declared
length 5 and an empty actual value; the decoder prints the length-mismatch
diagnostic but then raises `IndexError` inside the config-updated sub-parser,
so "does not raise" fails as claimed. -/
theorem C9_tlv_mismatch_raises_cex :
    runM (IridiumSBD.load (fun _ _ => Except.error ())
        [0x35, 0x23, 0x05, 0x00, 0x00, 0x00] none) =
      (.error .indexError,
       ["Error: unencrypted-tlv-data message has unexpected length 6!",
        "Error: inconsistent TLV lengths 5 and 0!",
        "Error: unexpected TLV length 5!"]) := by
  rfl

/-- C9 amended: on a TLV span whose declared length differs from the actual
value length, the decoder emits the length-mismatch warning, records
`value-(hex)` from the actual value bytes and continues type-specific
dispatch on the actual value, finishing without an exception — provided the
actual value holds the bytes the dispatched sub-parser reads (at least 2 for
config-updated, at least 1 for nak, none otherwise). -/
theorem C9_tlv_mismatch_best_effort (header length : Nat) (value cks : Bytes)
    (hcks : cks.length = 3) (hne : length ≠ value.length)
    (hok : tlvValueLenOk header value) :
    (resultOk (runM (IridiumSBD._parse_tlv_data_msg
        (header :: length :: (value ++ cks)))) = true) ∧
    (("Error: inconsistent TLV lengths " ++ toString length ++ " and " ++
        toString value.length ++ "!") ∈
      (runM (IridiumSBD._parse_tlv_data_msg (header :: length :: (value ++ cks)))).2) ∧
    ((lookupTree (resultTreeD (runM (IridiumSBD._parse_tlv_data_msg
        (header :: length :: (value ++ cks))))) "tlv").lookup "value-(hex)" =
      some (_hexlify value)) := by
  have hidx : pyIdx (value.length + 5) (((value.length + 5 : Nat) : Int) - 3) =
      value.length + 2 := by
    unfold pyIdx
    rw [if_neg (by omega)]
    omega
  have hlen : (header :: length :: (value ++ cks)).length = value.length + 5 := by
    simp [hcks]
  have hspan : pySlice (header :: length :: (value ++ cks)) 0
      (((header :: length :: (value ++ cks)).length : Int) - 3) =
      header :: length :: value := by
    unfold pySlice
    rw [hlen, hidx]
    have h0 : pyIdx (value.length + 5) 0 = 0 := by simp [pyIdx]
    rw [h0]
    rw [show value.length + 2 = value.length + 1 + 1 from rfl]
    simp [List.take_succ_cons]
  by_cases h1f : header = 0x1f
  · subst h1f
    simp only [runM, IridiumSBD._parse_tlv_data_msg]
    rw [hspan]
    simp [_parse_tlv, pyGet, pyDrop, _tlv_header_types, hne, resultOk, resultTreeD,
      lookupTree, List.lookup, _hexlify]
  by_cases h23 : header = 0x23
  · subst h23
    simp only [tlvValueLenOk, _tlv_header_types] at hok
    norm_num at hok
    obtain ⟨a, b, v2, rfl⟩ : ∃ a b v2, value = a :: b :: v2 := by
      rcases value with _ | ⟨a, _ | ⟨b, v2⟩⟩
      · simp at hok
      · simp at hok
      · exact ⟨a, b, v2, rfl⟩
    simp only [List.length_cons] at hne
    simp only [runM, IridiumSBD._parse_tlv_data_msg]
    rw [hspan]
    by_cases h2c : length = 2
    · subst h2c
      have hv2 : v2 ≠ [] := by
        intro hh
        subst hh
        exact hne rfl
      simp [_parse_tlv, pyGet, pyDrop, _tlv_header_types, hv2,
        _parse_config_updated_tlv, resultOk, resultTreeD, lookupTree,
        List.lookup, _hexlify]
    · simp [_parse_tlv, pyGet, pyDrop, _tlv_header_types, hne, h2c,
        _parse_config_updated_tlv, resultOk, resultTreeD, lookupTree,
        List.lookup, _hexlify]
  by_cases h2e : header = 0x2e
  · subst h2e
    simp only [runM, IridiumSBD._parse_tlv_data_msg]
    rw [hspan]
    simp [_parse_tlv, pyGet, pyDrop, _tlv_header_types, hne, resultOk, resultTreeD,
      lookupTree, List.lookup, _hexlify]
  by_cases h4a : header = 0x4a
  · subst h4a
    simp only [tlvValueLenOk, _tlv_header_types] at hok
    norm_num at hok
    obtain ⟨a, v2, rfl⟩ : ∃ a v2, value = a :: v2 := by
      rcases value with _ | ⟨a, v2⟩
      · simp at hok
      · exact ⟨a, v2, rfl⟩
    simp only [List.length_cons] at hne
    simp only [runM, IridiumSBD._parse_tlv_data_msg]
    rw [hspan]
    by_cases hnak : a = 0x05
    · subst hnak
      by_cases h1c : length = 1
      · subst h1c
        have hv2 : v2 ≠ [] := by
          intro hh
          subst hh
          exact hne rfl
        simp [_parse_tlv, pyGet, pyDrop, _tlv_header_types, hv2,
          _parse_nak_tlv, _nak_reasons, resultOk, resultTreeD, lookupTree,
          List.lookup, _hexlify]
      · simp [_parse_tlv, pyGet, pyDrop, _tlv_header_types, hne, h1c,
          _parse_nak_tlv, _nak_reasons, resultOk, resultTreeD, lookupTree,
          List.lookup, _hexlify]
    · by_cases h1c : length = 1
      · subst h1c
        have hv2 : v2 ≠ [] := by
          intro hh
          subst hh
          exact hne rfl
        simp [_parse_tlv, pyGet, pyDrop, _tlv_header_types, hv2,
          _parse_nak_tlv, _nak_reasons, hnak, resultOk, resultTreeD, lookupTree,
          List.lookup, _hexlify]
      · simp [_parse_tlv, pyGet, pyDrop, _tlv_header_types, hne, h1c,
          _parse_nak_tlv, _nak_reasons, hnak, resultOk, resultTreeD, lookupTree,
          List.lookup, _hexlify]
  · simp only [runM, IridiumSBD._parse_tlv_data_msg]
    rw [hspan]
    simp [_parse_tlv, pyGet, pyDrop, _tlv_header_types, h1f, h23, h2e, h4a, hne,
      resultOk, resultTreeD, lookupTree, List.lookup, _hexlify]

/-- C9 amended witness: a config-updated TLV with declared length 5 and a
2-byte actual value. -/
theorem C9_tlv_mismatch_best_effort_witness :
    (([0x01, 0x02, 0x03] : Bytes).length = 3) ∧
    ((0x05 : Nat) ≠ ([0xAA, 0xBB] : Bytes).length) ∧
    (resultOk (runM (IridiumSBD._parse_tlv_data_msg
        (0x23 :: 0x05 :: (([0xAA, 0xBB] : Bytes) ++ [0x01, 0x02, 0x03])))) = true) ∧
    (("Error: inconsistent TLV lengths " ++ toString (0x05 : Nat) ++ " and " ++
        toString ([0xAA, 0xBB] : Bytes).length ++ "!") ∈
      (runM (IridiumSBD._parse_tlv_data_msg
        (0x23 :: 0x05 :: (([0xAA, 0xBB] : Bytes) ++ [0x01, 0x02, 0x03])))).2) ∧
    ((lookupTree (resultTreeD (runM (IridiumSBD._parse_tlv_data_msg
        (0x23 :: 0x05 :: (([0xAA, 0xBB] : Bytes) ++ [0x01, 0x02, 0x03]))))) "tlv").lookup
        "value-(hex)" = some (_hexlify [0xAA, 0xBB])) := by
  have main := C9_tlv_mismatch_best_effort 0x23 0x05 [0xAA, 0xBB] [0x01, 0x02, 0x03]
    rfl (by decide) (by norm_num [tlvValueLenOk, _tlv_header_types])
  exact ⟨rfl, by decide, main.1, main.2.1, main.2.2⟩

/-- C10: for every status byte value below 256, the status-prod flag
`from-in-motion-message`, read at bit position 8 of the 8-bit byte, decodes
to `False`. -/
theorem C10_from_in_motion_flag_false (status : Nat) (h : status < 256) :
    (_parse_chained_location_status_prod status).lookup "from-in-motion-message" =
      some (.bool false) := by
  have h8 : _isolate_bits status 8 1 = 0 := by
    have h1 : status &&& (1 <<< 8) ≤ status := Nat.and_le_left
    have h2 : status &&& (1 <<< 8) < 2 ^ 8 := lt_of_le_of_lt h1 h
    simp only [_isolate_bits, Nat.shiftRight_eq_div_pow]
    exact Nat.div_eq_of_lt h2
  simp [_parse_chained_location_status_prod, _parse_bool_flag, List.lookup, h8]

/-- C10 witness at the all-ones status byte. -/
theorem C10_from_in_motion_flag_false_witness :
    (255 : Nat) < 256 ∧
    (_parse_chained_location_status_prod 255).lookup "from-in-motion-message" =
      some (.bool false) :=
  ⟨by decide, C10_from_in_motion_flag_false 255 (by decide)⟩

end TotsSbd
